import Mathlib

/-!
Verification of the Scalar_Lab research-loop repository.

Shallow embedding of:
* `dynamic_builder.py` — `CodeAssembler.assemble_script`, `_find_pattern`;
* `advanced_scalar_lab.py` — `custom_speaker_selection`, `get_reward_from_file`,
  and the retry loop inside `research_cycle`;
* `scalar_maker_pipeline.py` — `ScalarMaker._generate_with_voting`,
  `_run_critic_selection`.

JSON objects (the plan, the per-backend pattern library, item objects) are
modelled as association lists with first-match lookup; the code never
iterates over the plan's own keys, so an association list plus `lookupKey`
is a faithful image of a Python `dict` here.  Python floats appearing in the
reward computation only ever take the exact decimal values -1.0, -0.5, 0.0,
0.1, 1.0, 5.0, 10.0, so they are modelled as rationals.
-/

namespace ScalarLab

/-- Equality of `Except` results is decidable whenever it is on both
components (used to evaluate the theorems below on concrete inputs). -/
instance {ε α : Type} [DecidableEq ε] [DecidableEq α] : DecidableEq (Except ε α) :=
  fun a b =>
    match a, b with
    | .ok x, .ok y =>
      if h : x = y then .isTrue (by rw [h]) else .isFalse (by simp [h])
    | .error x, .error y =>
      if h : x = y then .isTrue (by rw [h]) else .isFalse (by simp [h])
    | .ok _, .error _ => .isFalse (by simp)
    | .error _, .ok _ => .isFalse (by simp)

/-- First-match lookup in an association list; the model of `k in d` /
`d[k]` / `d.get(k)` on a Python `dict` (whose keys are unique, so first
match is the only match). -/
def lookupKey {α : Type} (k : String) : List (String × α) → Option α
  | [] => none
  | (k', v) :: rest => if k' = k then some v else lookupKey k rest

/-- The opening brace character. -/
def obrace : Char := Char.ofNat 123

/-- The closing brace character. -/
def cbrace : Char := Char.ofNat 125

/-- Errors raised by Python `str.format`: `KeyError` carries the missing
key (its `str()` form is the key wrapped in single quotes); every other
formatting exception (`ValueError` for a stray brace, `IndexError` for a
positional field) is collapsed into `valueError` — `assemble_script` only
catches `KeyError`, so the distinction that matters is preserved. -/
inductive FmtErr : Type where
  | keyError (k : String)
  | valueError (m : String)
deriving DecidableEq

/-- Core of Python `str.format(**kwargs)` as used by the library templates:
literal text is copied, `\x7b\x7b`/`\x7d\x7d` escape to a brace, and
`\x7bname\x7d` is replaced by `kwargs[name]`, raising `KeyError(name)` when
absent.  The first argument is `some acc` while scanning a replacement
field (accumulating its characters in reverse), `none` otherwise.
Conversion/format-spec suffixes (`!r`, `:>5`) are not used by any template
a claim concerns and are treated as part of the field name. -/
def pyGo (get : String → Option String) : Option (List Char) → List Char → Except FmtErr (List Char)
  | none, [] => .ok []
  | some _, [] => .error (.valueError "Single \x27\x7b\x27 encountered in format string")
  | none, c :: cs =>
    if c = obrace then
      match cs with
      | c2 :: cs2 =>
        if c2 = obrace then (pyGo get none cs2).map (obrace :: ·)
        else if c2 = cbrace then .error (.valueError "Replacement index 0 out of range")
        else pyGo get (some [c2]) cs2
      | [] => .error (.valueError "Single \x27\x7b\x27 encountered in format string")
    else if c = cbrace then
      match cs with
      | c2 :: cs2 =>
        if c2 = cbrace then (pyGo get none cs2).map (cbrace :: ·)
        else .error (.valueError "Single \x27\x7d\x27 encountered in format string")
      | [] => .error (.valueError "Single \x27\x7d\x27 encountered in format string")
    else (pyGo get none cs).map (c :: ·)
  | some acc, c :: cs =>
    if c = cbrace then
      match get (String.mk acc.reverse) with
      | some v => (pyGo get none cs).map (fun r => v.toList ++ r)
      | none => .error (.keyError (String.mk acc.reverse))
    else pyGo get (some (c :: acc)) cs

/-- `template.format(**kwargs)` with `get` as the keyword lookup. -/
def pyFormat (get : String → Option String) (template : String) : Except FmtErr String :=
  (pyGo get none template.toList).map String.mk

/-- Format a list of template lines in order; the first exception wins,
exactly as the Python `for` loop raises at the first bad line. -/
def formatLines (get : String → Option String) : List String → Except FmtErr (List String)
  | [] => .ok []
  | l :: rest =>
    match pyFormat get l with
    | .error e => .error e
    | .ok fl =>
      match formatLines get rest with
      | .error e => .error e
      | .ok rs => .ok (fl :: rs)

/-! ## Data model: pattern library, plan, items (`dynamic_builder.py`) -/

/-- A top-level value in a pattern-library JSON document: either an ordered
list of template lines (`imports`, `init_project`, list-form `analyze`) or
a category, i.e. a mapping from type name to template lines
(`geometry_shapes`, …, dict-form `analyze`).  This is the
`isinstance(content, dict)` distinction drawn by `_find_pattern` and by the
`analyze` block of `assemble_script`. -/
inductive LibVal : Type where
  | lines (ls : List String)
  | cat (c : List (String × List String))
deriving DecidableEq

/-- A per-backend pattern library: the JSON document's top-level mapping. -/
abbrev Library := List (String × LibVal)

/-- A plan item `\x7btype, params\x7d`.  `type?` is `item.get('type')`
(`none` when the key is absent) and `params` is `item.get('params', \x7b\x7d)`;
param values are strings as in every plan the repository builds. -/
structure Item : Type where
  type? : Option String
  params : List (String × String)
deriving DecidableEq

/-- A stage value in the plan document: a sequence of item objects or a
single item object (the two JSON shapes the Mathematician emits). -/
inductive StageVal : Type where
  | items (is : List Item)
  | single (it : Item)
deriving DecidableEq

/-- A top-level plan value: a string field such as `model_name`, or a
stage value. -/
inductive PlanVal : Type where
  | str (s : String)
  | stage (v : StageVal)
deriving DecidableEq

/-- The plan document: its top-level JSON object. -/
abbrev Plan := List (String × PlanVal)

/-- `plan[k]` / `k in plan` (`isSome`). -/
def planFind (p : Plan) (k : String) : Option PlanVal := lookupKey k p

/-- `str(value)` for a string param of an item dict (single-quoted repr;
quote escaping inside the value is not needed by anything the claims
touch). -/
def pyStr (s : String) : String := "\x27" ++ s ++ "\x27"

/-- `str()` of the dict modelled by `Item`: the `type` entry when present,
then the `params` entry when nonempty. -/
def renderItem (it : Item) : String :=
  let typeEntry :=
    match it.type? with
    | some t => [pyStr "type" ++ ": " ++ pyStr t]
    | none => []
  let paramsEntry :=
    if it.params.isEmpty then []
    else [pyStr "params" ++ ": " ++
      ("\x7b" ++ String.intercalate ", "
        (it.params.map (fun kv => pyStr kv.1 ++ ": " ++ pyStr kv.2)) ++ "\x7d")]
  "\x7b" ++ String.intercalate ", " (typeEntry ++ paramsEntry) ++ "\x7d"

/-- `str()` of a stage value (a list of dicts, or one dict). -/
def renderStageVal : StageVal → String
  | .items is => "[" ++ String.intercalate ", " (is.map renderItem) ++ "]"
  | .single it => renderItem it

/-- Text interpolated when a template placeholder names a top-level plan
entry: Python inserts `str(value)`.  No library template interpolates a
stage value, but the rendering is defined so that formatting stays total. -/
def renderPlanVal : PlanVal → String
  | .str s => s
  | .stage v => renderStageVal v

/-- Keyword lookup used for `line.format(**plan)`. -/
def planGetStr (get : String → Option PlanVal) (k : String) : Option String :=
  (get k).map renderPlanVal

/-- Keyword lookup used for `line.format(**params)`. -/
def paramGet (ps : List (String × String)) (k : String) : Option String :=
  lookupKey k ps

/-- The six plan stages `assemble_script` walks, in its fixed textual
order (`structure` is shortened to `struct`: it is a Lean keyword). -/
inductive StageName : Type where
  | struct | materials | physics | setup | analyze | results
deriving DecidableEq

/-- The plan key of each stage. -/
def stageKey : StageName → String
  | .struct => "structure"
  | .materials => "materials"
  | .physics => "physics"
  | .setup => "setup"
  | .analyze => "analyze"
  | .results => "results"

/-- The capitalised noun of each stage's missing-type `ValueError`
(`Component type '…' not found …`, `Material type '…' not found …`, …). -/
def stageTypeNoun : StageName → String
  | .struct => "Component"
  | .materials => "Material"
  | .physics => "Physics"
  | .setup => "Setup"
  | .analyze => "Analyze"
  | .results => "Result"

/-- The lower-case noun of each stage's missing-parameter `ValueError`
(`Missing parameter for component '…': …`). -/
def stageParamNoun : StageName → String
  | .struct => "component"
  | .materials => "material"
  | .physics => "physics"
  | .setup => "setup"
  | .analyze => "analyze"
  | .results => "result"

/-- `ValueError` text for an unresolvable (or empty-template) item type. -/
def missingTypeMsg (st : StageName) (engine t : String) : String :=
  stageTypeNoun st ++ " type \x27" ++ t ++ "\x27 not found in library for engine \x27" ++
    engine ++ "\x27"

/-- `ValueError` text re-raised from a `KeyError` while formatting an
item's template lines (`str(KeyError(k))` is the quoted key). -/
def missingParamMsg (st : StageName) (t k : String) : String :=
  "Missing parameter for " ++ stageParamNoun st ++ " \x27" ++ t ++ "\x27: \x27" ++ k ++ "\x27"

/-- Re-raise a formatting error for the `imports`/`init_project`/list-form
`analyze` blocks: a `KeyError` becomes `ValueError(prefixMsg + str(e))`,
any other formatting exception propagates as it is. -/
def mapFmtErr (prefixMsg : String) : FmtErr → String
  | .keyError k => prefixMsg ++ "\x27" ++ k ++ "\x27"
  | .valueError m => m

/-- `AttributeError` raised when a stage value is iterated but its
elements are strings (iterating a dict yields its keys, iterating a string
yields its characters; either way `item.get` then fails). -/
def strGetAttrErr : String := "\x27str\x27 object has no attribute \x27get\x27"

/-- The dict modelled by an `Item` is empty: iterating it runs the loop
body zero times, so no `AttributeError` can be raised. -/
def itemDictEmpty (it : Item) : Bool := it.type?.isNone && it.params.isEmpty

/-- `CodeAssembler._find_pattern`: scan the library's top-level entries in
order, search only the dict-valued ones, and return the first category
containing `t` together with its template lines. -/
def find_pattern : Library → String → Option (List String × String)
  | [], _ => none
  | (cat, .cat c) :: rest, t =>
    match lookupKey t c with
    | some pl => some (pl, cat)
    | none => find_pattern rest t
  | (_, .lines _) :: rest, t => find_pattern rest t

/-- The per-item body of each stage loop in `assemble_script`: skip the
item when its type is missing or empty (falsy), resolve the type
(`if not pattern_lines` also fires on a present-but-empty template list),
then emit the comment line, the formatted template lines, and a blank
separator.  The comment carries an `(ID: …)` field only in the structure
loop. -/
def mkComment (st : StageName) (cat t : String) (ps : List (String × String)) : String :=
  "# " ++ cat ++ ": " ++ t ++
    (if st = .struct then " (ID: " ++ (lookupKey "id" ps).getD "N/A" ++ ")" else "")

def processItem (lib : Library) (engine : String) (st : StageName) (it : Item) :
    Except String (List String) :=
  match it.type? with
  | none => .ok []
  | some t =>
    if t = "" then .ok []
    else
      match find_pattern lib t with
      | none => .error (missingTypeMsg st engine t)
      | some (pl, cat) =>
        if pl = [] then .error (missingTypeMsg st engine t)
        else
          match formatLines (paramGet it.params) pl with
          | .error (.keyError k) => .error (missingParamMsg st t k)
          | .error (.valueError m) => .error m
          | .ok body => .ok (mkComment st cat t it.params :: (body ++ [""]))

/-- One stage's `for item in …` loop: items in order, first raise wins. -/
def processItems (lib : Library) (engine : String) (st : StageName) :
    List Item → Except String (List String)
  | [] => .ok []
  | it :: rest =>
    match processItem lib engine st it with
    | .error m => .error m
    | .ok a =>
      match processItems lib engine st rest with
      | .error m => .error m
      | .ok b => .ok (a ++ b)

/-- The `imports` block of `assemble_script`: when present, each line is
formatted against the plan's top-level entries (a `KeyError` is re-raised
as `Missing parameter for import formatting: …`); a spacing blank line is
appended unconditionally.  A dict-valued `imports` entry would be iterated
by Python as its keys, which `libValLines` mirrors. -/
def libValLines : LibVal → List String
  | .lines ls => ls
  | .cat c => c.map Prod.fst

def importsSection (lib : Library) (get : String → Option PlanVal) :
    Except String (List String) :=
  match lookupKey "imports" lib with
  | none => .ok [""]
  | some v =>
    match formatLines (planGetStr get) (libValLines v) with
    | .error e => .error (mapFmtErr "Missing parameter for import formatting: " e)
    | .ok out => .ok (out ++ [""])

/-- The `init_project` block: like `imports`, but both the lines and the
trailing blank appear only when the library has the key. -/
def initSection (lib : Library) (get : String → Option PlanVal) :
    Except String (List String) :=
  match lookupKey "init_project" lib with
  | none => .ok []
  | some v =>
    match formatLines (planGetStr get) (libValLines v) with
    | .error e => .error (mapFmtErr "Missing parameter for init_project formatting: " e)
    | .ok out => .ok (out ++ [""])

/-- One of the five item-stage blocks (`structure`, `materials`,
`physics`, `setup`, `results`).  Only the `setup` block wraps a single
dict into a one-element list (`isinstance(setup_items, dict)`); in every
other stage iterating a dict yields its keys and `item.get` raises
`AttributeError` at the first key (no error only when the dict is empty).
A string stage value likewise iterates as characters. -/
def stageSection (lib : Library) (engine : String) (st : StageName)
    (get : String → Option PlanVal) : Except String (List String) :=
  match get (stageKey st) with
  | none => .ok []
  | some (.str s) => if s = "" then .ok [] else .error strGetAttrErr
  | some (.stage (.items is)) => processItems lib engine st is
  | some (.stage (.single it)) =>
    if st = .setup then processItems lib engine st [it]
    else if itemDictEmpty it then .ok [] else .error strGetAttrErr

/-- The `analyze` block: nothing without a library `analyze` entry; a
dict-form entry makes the plan's `analyze` stage behave like the other
item stages (types still resolved across the whole library); a list-form
entry is formatted against the plan's top-level fields followed by a
blank line, ignoring the plan's `analyze` stage. -/
def analyzeSection (lib : Library) (engine : String)
    (get : String → Option PlanVal) : Except String (List String) :=
  match lookupKey "analyze" lib with
  | none => .ok []
  | some (.cat _) =>
    match get "analyze" with
    | none => .ok []
    | some (.str s) => if s = "" then .ok [] else .error strGetAttrErr
    | some (.stage (.items is)) => processItems lib engine .analyze is
    | some (.stage (.single it)) =>
      if itemDictEmpty it then .ok [] else .error strGetAttrErr
  | some (.lines ls) =>
    match formatLines (planGetStr get) ls with
    | .error e => .error (mapFmtErr "Missing parameter for analyze formatting: " e)
    | .ok out => .ok (out ++ [""])

/-- `CodeAssembler.assemble_script`, as the list of script lines before
the final `"\n".join`: the eight blocks in the program's fixed order.
The plan is consulted only through its lookup function `get`. -/
def assembleLines (lib : Library) (engine : String)
    (get : String → Option PlanVal) : Except String (List String) :=
  match importsSection lib get with
  | .error m => .error m
  | .ok l1 =>
    match initSection lib get with
    | .error m => .error m
    | .ok l2 =>
      match stageSection lib engine .struct get with
      | .error m => .error m
      | .ok l3 =>
        match stageSection lib engine .materials get with
        | .error m => .error m
        | .ok l4 =>
          match stageSection lib engine .physics get with
          | .error m => .error m
          | .ok l5 =>
            match stageSection lib engine .setup get with
            | .error m => .error m
            | .ok l6 =>
              match analyzeSection lib engine get with
              | .error m => .error m
              | .ok l7 =>
                match stageSection lib engine .results get with
                | .error m => .error m
                | .ok l8 => .ok (l1 ++ (l2 ++ (l3 ++ (l4 ++ (l5 ++ (l6 ++ (l7 ++ l8)))))))

/-- `CodeAssembler.assemble_script` on a plan document. -/
def assemble_script (lib : Library) (engine : String) (p : Plan) :
    Except String String :=
  (assembleLines lib engine (planFind p)).map (String.intercalate "\n")

/-- The lookup function of the plan that agrees with `get` except that key
`k` now maps to `v` (used to state "the same plan with this stage
replaced"). -/
def overrideGet (get : String → Option PlanVal) (k : String) (v : PlanVal) :
    String → Option PlanVal :=
  fun k' => if k' = k then some v else get k'

/-- The `CodeAssembler` object: `self.engine` (already lower-cased by
`__init__`) and `self.library` (loaded once from the backend's JSON
file — external to this repository — and never written afterwards). -/
structure CodeAssembler : Type where
  engine : String
  library : Library
deriving DecidableEq

/-- The `assemble_script` method viewed with its receiver: the method's
only interaction with the object is reading `self.library` and
`self.engine`, so it returns the receiver unchanged. -/
def assemble_script_method (a : CodeAssembler) (p : Plan) :
    Except String String × CodeAssembler :=
  (assemble_script a.library a.engine p, a)

/-! ## Workflow state machine (`advanced_scalar_lab.py`, `custom_speaker_selection`) -/

/-- The six agents of the group chat. -/
inductive Agent : Type where
  | admin | architect | alchemist | switchman | mathematician | critic
deriving DecidableEq

/-- What the selector returns: a named next speaker, or the string
`"auto"` selecting the unconstrained dispatch path. -/
inductive Selection : Type where
  | agent (a : Agent)
  | auto
deriving DecidableEq

/-- `needle` starts `hay`. -/
def isPrefixL : List Char → List Char → Bool
  | [], _ => true
  | _ :: _, [] => false
  | a :: as, b :: bs => a = b && isPrefixL as bs

/-- `needle` occurs contiguously in `hay`. -/
def isInfixL (needle : List Char) : List Char → Bool
  | [] => isPrefixL needle []
  | b :: bs => isPrefixL needle (b :: bs) || isInfixL needle bs

/-- `needle in hay` on Python strings. -/
def containsStr (needle hay : String) : Bool :=
  isInfixL needle.toList hay.toList

/-- Python `str.upper()` (character-wise; agrees with Python on the ASCII
marker text the selector looks for). -/
def pyUpper (s : String) : String := String.mk (s.toList.map Char.toUpper)

/-- The override predicate: the last message, upper-cased, contains
`QUESTION` or `CLARIFY`. -/
def hasQuestionMarker (m : String) : Bool :=
  containsStr "QUESTION" (pyUpper m) || containsStr "CLARIFY" (pyUpper m)

/-- `custom_speaker_selection`: the override check runs only when the
message list is nonempty; then the fixed edges.  The critic edge re-reads
`messages[-1]` unguarded, so with an empty message list it raises
`IndexError` (modelled as `none`); the final `return "auto"` is reachable
only for a speaker outside the six agents, which the group chat never
produces. -/
def custom_speaker_selection (lastSpeaker : Agent) (messages : List String) :
    Option Selection :=
  match messages.getLast? with
  | some m =>
    if hasQuestionMarker m then some .auto
    else
      match lastSpeaker with
      | .admin => some (.agent .architect)
      | .architect => some (.agent .alchemist)
      | .alchemist => some (.agent .switchman)
      | .switchman => some (.agent .critic)
      | .critic =>
        if containsStr "APPROVE" m then some (.agent .mathematician)
        else some (.agent .architect)
      | .mathematician => some (.agent .admin)
  | none =>
    match lastSpeaker with
    | .admin => some (.agent .architect)
    | .architect => some (.agent .alchemist)
    | .alchemist => some (.agent .switchman)
    | .switchman => some (.agent .critic)
    | .critic => none
    | .mathematician => some (.agent .admin)

/-! ## Reward and the repair loop (`advanced_scalar_lab.py`, `research_cycle`) -/

/-- `get_reward_from_file`: the artifact is `some v` when
`pd.read_csv(filepath)[metric_col].iloc[-1]` yields the value `v`, and
`none` when any step of that raises (missing file, missing column, empty
frame, unreadable value) — the bare `except` then returns the crash
penalty `-1.0`.  The float constants are exact, so rationals model them
faithfully. -/
def get_reward_from_file (artifact : Option ℚ) : ℚ :=
  match artifact with
  | none => -1
  | some v =>
    if 1000 < v then 10
    else if 100 < v then 5
    else if 10 < v then 1
    else 1 / 10

/-- What one iteration of the `while retry_count < max_retries` body runs
into, as seen at its decision points: no (or empty) Mathematician message;
`json.loads` failure; any other exception during build/write/execute
spawning; or a completed execution with its exit code, captured output
and the result-artifact read used on success. -/
inductive StepOutcome : Type where
  | noMsg
  | parseError
  | buildError (e : String)
  | executed (exitCode : Int) (stdout stderr : String) (artifact : Option ℚ)

/-- What `research_cycle` holds when the loop ends: the `success` flag,
the last `reward` value, how many loop bodies ran, and the corrective
messages fed back to the chat, in order. -/
structure CycleResult : Type where
  success : Bool
  reward : ℚ
  iterations : Nat
  feedback : List String
deriving DecidableEq

/-- The corrective message fed back on a nonzero exit code (built from the
captured stderr). -/
def mkExecErrMsg (stderr : String) : String :=
  "Simulation failed with error:\n" ++ stderr ++
    "\nPlease adjust the JSON plan to fix this error."

/-- The corrective message fed back on a JSON parse failure. -/
def jsonErrMsg : String :=
  "JSON Parse Error: The output was not valid JSON. Please output ONLY a valid JSON block."

/-- The corrective message fed back on a build/execution exception. -/
def mkBuildErrMsg (e : String) : String :=
  "Error during build/execution: " ++ e ++ "\nPlease adjust the JSON plan."

/-- The retry loop of `research_cycle`.  The guard is
`retry_count < max_retries and not success`; every path that re-enters the
loop increments `retry_count`, so the iteration index equals the retry
count and `fuel = max_retries - retry_count` makes the recursion
structural.  `r` is the current value of the `reward` variable
(initialised to `0.0`), `fb` the feedback messages sent so far. -/
def research_loop_go (env : Nat → StepOutcome) :
    Nat → Nat → ℚ → List String → CycleResult
  | 0, n, r, fb => ⟨false, r, n, fb⟩
  | fuel + 1, n, r, fb =>
    match env n with
    | .noMsg => ⟨false, 0, n + 1, fb⟩
    | .parseError =>
      research_loop_go env fuel (n + 1) (-(1 / 2)) (fb ++ [jsonErrMsg])
    | .buildError e =>
      research_loop_go env fuel (n + 1) (-1) (fb ++ [mkBuildErrMsg e])
    | .executed ec _ stderr artifact =>
      if ec = 0 then ⟨true, get_reward_from_file artifact, n + 1, fb⟩
      else research_loop_go env fuel (n + 1) (-1) (fb ++ [mkExecErrMsg stderr])

/-- The retry loop entered as `research_cycle` enters it:
`retry_count = 0`, `success = False`, `reward = 0.0`. -/
def research_loop (env : Nat → StepOutcome) (maxRetries : Nat) : CycleResult :=
  research_loop_go env maxRetries 0 0 []

/-- `max_retries` as set in `research_cycle`. -/
def max_retries : Nat := 3

/-- A loop-body outcome that takes the retry path: a parse error, a
build/execution exception, or a nonzero exit code. -/
def retryable : StepOutcome → Prop
  | .noMsg => False
  | .parseError => True
  | .buildError _ => True
  | .executed ec _ _ _ => ec ≠ 0

instance : DecidablePred retryable := fun o => by
  cases o with
  | noMsg => exact .isFalse (fun h => h)
  | parseError => exact .isTrue trivial
  | buildError e => exact .isTrue trivial
  | executed ec out err art => exact inferInstanceAs (Decidable (ec ≠ 0))

/-! ## Candidate selection (`scalar_maker_pipeline.py`) -/

/-- Digits of `re.search(r"\d+", s)`: the first maximal run of (ASCII)
digits in `s`, or `none` when the string has none. -/
def firstDigitRun (s : String) : Option (List Char) :=
  let ds := (s.toList.dropWhile (fun c => !c.isDigit)).takeWhile Char.isDigit
  if ds.isEmpty then none else some ds

/-- `int()` on a nonempty digit string. -/
def digitsToNat (ds : List Char) : Nat :=
  ds.foldl (fun a c => a * 10 + (c.toNat - 48)) 0

/-- `int(re.search(r"\d+", s).group())`, `none` when `re.search` returns
`None` (the subsequent `.group()` then raises, caught by the bare
`except`). -/
def parseFirstNat (s : String) : Option Nat :=
  (firstDigitRun s).map digitsToNat

/-- `ScalarMaker._run_critic_selection`: ask the critic (modelled as a
function of the candidate list, since the prompt is built from it), parse
the first integer of the reply, take `candidates[idx]` when the index is
in range and `candidates[0]` otherwise or on any exception.  `none` is
Python's `IndexError` on an empty candidate list, which the caller never
passes. -/
def run_critic_selection (critic : List Plan → String) (candidates : List Plan) :
    Option Plan :=
  match parseFirstNat (critic candidates) with
  | some idx => if idx < candidates.length then candidates[idx]? else candidates[0]?
  | none => candidates[0]?

/-- The candidate-collection loop of `_generate_with_voting`: `for i in
range(voters)` makes exactly one generator call per iteration;
`gens i = some p` models a draft whose extracted JSON parses to the
(truthy) plan `p`, `none` an invalid (or falsy) draft that is red-flagged
and dropped.  Returns the kept candidates in order and the number of
generator calls made. -/
def collectCandidates (gens : Nat → Option Plan) : Nat → List Plan × Nat
  | 0 => ([], 0)
  | k + 1 =>
    let (cs, n) := collectCandidates gens k
    match gens k with
    | some p => (cs ++ [p], n + 1)
    | none => (cs, n + 1)

/-- `ScalarMaker._generate_with_voting`: collect `voters` drafts, fail
with `ValueError` when none is valid, return a lone valid draft directly,
otherwise let the critic arbitrate.  The second component counts the
generator invocations. -/
def generate_with_voting (gens : Nat → Option Plan) (critic : List Plan → String)
    (agentName : String) (voters : Nat) : Except String Plan × Nat :=
  match collectCandidates gens voters with
  | (cs, n) =>
    match cs with
    | [] => (.error (agentName ++ " failed to produce valid output in " ++
        toString voters ++ " attempts."), n)
    | [c] => (.ok c, n)
    | _ :: _ :: _ =>
      match run_critic_selection critic cs with
      | some c => (.ok c, n)
      | none => (.error "IndexError", n)

/-! ## Helper lemmas -/

theorem lookupKey_mem {α : Type} {k : String} {v : α} {l : List (String × α)}
    (h : lookupKey k l = some v) : (k, v) ∈ l := by
  induction l with
  | nil => simp [lookupKey] at h
  | cons kv rest ih =>
    obtain ⟨k', v'⟩ := kv
    by_cases hk : k' = k
    · subst hk
      simp [lookupKey] at h
      subst h
      exact List.mem_cons_self _ _
    · simp [lookupKey, hk] at h
      exact List.mem_cons_of_mem _ (ih h)

theorem lookupKey_of_mem {α : Type} {l : List (String × α)}
    (hn : (l.map Prod.fst).Nodup) {k : String} {v : α} (hm : (k, v) ∈ l) :
    lookupKey k l = some v := by
  induction l with
  | nil => simp at hm
  | cons kv rest ih =>
    obtain ⟨k', v'⟩ := kv
    simp only [List.map_cons, List.nodup_cons] at hn
    rcases List.mem_cons.mp hm with h | h
    · obtain ⟨hk, hv⟩ := Prod.mk.injEq .. ▸ h
      simp [lookupKey, hk.symm, hv]
    · have hne : k' ≠ k := by
        intro he
        exact hn.1 (he ▸ (List.mem_map.mpr ⟨(k, v), h, rfl⟩))
      simp [lookupKey, hne, ih hn.2 h]

theorem lookupKey_eq_none {α : Type} {k : String} {l : List (String × α)} :
    lookupKey k l = none ↔ k ∉ l.map Prod.fst := by
  induction l with
  | nil => simp [lookupKey]
  | cons kv rest ih =>
    obtain ⟨k', v'⟩ := kv
    by_cases hk : k' = k
    · subst hk
      simp [lookupKey]
    · simp [lookupKey, hk, ih, Ne.symm hk]

/-- A plan with unique keys reads identically to any reordering of it:
`assemble_script` consults the plan only through `planFind`. -/
theorem planFind_ext_of_perm {p q : Plan} (hn : (p.map Prod.fst).Nodup)
    (hpq : p.Perm q) : planFind p = planFind q := by
  have hnq : (q.map Prod.fst).Nodup := ((hpq.map Prod.fst).nodup_iff).mp hn
  funext k
  cases hv : lookupKey k p with
  | some v =>
    have : (k, v) ∈ q := (hpq.mem_iff).mp (lookupKey_mem hv)
    simp [planFind, hv, lookupKey_of_mem hnq this]
  | none =>
    have : k ∉ q.map Prod.fst := fun hc =>
      (lookupKey_eq_none.mp hv) (((hpq.map Prod.fst).mem_iff).mpr hc)
    simp [planFind, hv, lookupKey_eq_none.mpr this]

/-- Splitting a stage's item loop: the items before the split run first,
and the rest runs only when they all succeeded. -/
theorem processItems_append (lib : Library) (engine : String) (st : StageName)
    (xs ys : List Item) :
    processItems lib engine st (xs ++ ys) =
      match processItems lib engine st xs with
      | .error m => .error m
      | .ok a =>
        match processItems lib engine st ys with
        | .error m => .error m
        | .ok b => .ok (a ++ b) := by
  induction xs with
  | nil =>
    simp only [List.nil_append, processItems]
    cases processItems lib engine st ys <;> rfl
  | cons x rest ih =>
    cases hx : processItem lib engine st x with
    | error m => simp [List.cons_append, processItems, hx]
    | ok a =>
      cases hr : processItems lib engine st rest with
      | error m => simp [List.cons_append, processItems, hx, ih, hr]
      | ok b =>
        cases hy : processItems lib engine st ys with
        | error m => simp [List.cons_append, processItems, hx, ih, hr, hy]
        | ok c =>
          simp [List.cons_append, processItems, hx, ih, hr, hy, List.append_assoc]

theorem research_loop_go_iterations_le (env : Nat → StepOutcome) :
    ∀ fuel n r fb, (research_loop_go env fuel n r fb).iterations ≤ n + fuel := by
  intro fuel
  induction fuel with
  | zero => intro n r fb; simp [research_loop_go]
  | succ f ih =>
    intro n r fb
    cases henv : env n with
    | noMsg => simp [research_loop_go, henv]
    | parseError =>
      simp only [research_loop_go, henv]
      exact (ih (n + 1) _ _).trans (by omega)
    | buildError e =>
      simp only [research_loop_go, henv]
      exact (ih (n + 1) _ _).trans (by omega)
    | executed ec out err art =>
      simp only [research_loop_go, henv]
      by_cases hec : ec = 0
      · simp [hec]
      · simp only [if_neg hec]
        exact (ih (n + 1) _ _).trans (by omega)

theorem research_loop_go_success (env : Nat → StepOutcome)
    (out err : String) (art : Option ℚ) :
    ∀ k fuel n r fb, k < fuel →
      (∀ i, i < k → retryable (env (n + i))) →
      env (n + k) = .executed 0 out err art →
      ∃ fb', research_loop_go env fuel n r fb =
        ⟨true, get_reward_from_file art, n + k + 1, fb'⟩ := by
  intro k
  induction k with
  | zero =>
    intro fuel n r fb hlt _ henv
    obtain ⟨f, rfl⟩ : ∃ f, fuel = f + 1 := ⟨fuel - 1, by omega⟩
    simp only [Nat.add_zero] at henv
    exact ⟨fb, by simp [research_loop_go, henv]⟩
  | succ k ih =>
    intro fuel n r fb hlt hretry henv
    obtain ⟨f, rfl⟩ : ∃ f, fuel = f + 1 := ⟨fuel - 1, by omega⟩
    have h0 : retryable (env n) := by simpa using hretry 0 (Nat.succ_pos k)
    have hsh : ∀ i, i < k → retryable (env (n + 1 + i)) := by
      intro i hi
      have h1 := hretry (i + 1) (by omega)
      have h2 : n + (i + 1) = n + 1 + i := by omega
      rwa [h2] at h1
    have henv' : env (n + 1 + k) = .executed 0 out err art := by
      have h2 : n + 1 + k = n + (k + 1) := by omega
      rw [h2]; exact henv
    have hidx : n + 1 + k + 1 = n + (k + 1) + 1 := by omega
    cases ho : env n with
    | noMsg => rw [ho] at h0; simp [retryable] at h0
    | parseError =>
      obtain ⟨fb', hres⟩ := ih f (n + 1) (-(1 / 2)) (fb ++ [jsonErrMsg])
        (by omega) hsh henv'
      rw [hidx] at hres
      exact ⟨fb', by simp only [research_loop_go, ho]; exact hres⟩
    | buildError e =>
      obtain ⟨fb', hres⟩ := ih f (n + 1) (-1) (fb ++ [mkBuildErrMsg e])
        (by omega) hsh henv'
      rw [hidx] at hres
      exact ⟨fb', by simp only [research_loop_go, ho]; exact hres⟩
    | executed ec o e a =>
      rw [ho] at h0
      have hec : ec ≠ 0 := h0
      obtain ⟨fb', hres⟩ := ih f (n + 1) (-1) (fb ++ [mkExecErrMsg e])
        (by omega) hsh henv'
      rw [hidx] at hres
      exact ⟨fb', by simp only [research_loop_go, ho, if_neg hec]; exact hres⟩

theorem research_loop_go_all_nonzero (env : Nat → StepOutcome)
    (ec : Nat → Int) (out err : Nat → String) (art : Nat → Option ℚ) :
    ∀ fuel n r fb,
      (∀ i, n ≤ i → i < n + fuel →
        env i = .executed (ec i) (out i) (err i) (art i) ∧ ec i ≠ 0) →
      research_loop_go env fuel n r fb =
        ⟨false, if fuel = 0 then r else -1, n + fuel,
          fb ++ (List.range' n fuel).map (fun i => mkExecErrMsg (err i))⟩ := by
  intro fuel
  induction fuel with
  | zero => intro n r fb _; simp [research_loop_go, List.range']
  | succ f ih =>
    intro n r fb h
    obtain ⟨he, hne⟩ := h n (Nat.le_refl n) (by omega)
    simp only [research_loop_go, he, if_neg hne]
    rw [ih (n + 1) (-1) _ (fun i h1 h2 => h i (by omega) (by omega))]
    have hlen : n + 1 + f = n + (f + 1) := by omega
    have hr : (if f = 0 then (-1 : ℚ) else -1) = -1 := by split <;> rfl
    have hrange : List.range' n (f + 1) = n :: List.range' (n + 1) f := by
      simp [List.range'_succ]
    simp [hlen, hr, hrange]

theorem collectCandidates_calls (gens : Nat → Option Plan) :
    ∀ k, (collectCandidates gens k).2 = k := by
  intro k
  induction k with
  | zero => rfl
  | succ k ih =>
    cases hc : collectCandidates gens k with
    | mk cs n =>
      rw [hc] at ih
      cases hg : gens k <;> simp [collectCandidates, hc, hg] <;> exact ih

theorem collectCandidates_mem (gens : Nat → Option Plan) :
    ∀ k p, p ∈ (collectCandidates gens k).1 → ∃ i, i < k ∧ gens i = some p := by
  intro k
  induction k with
  | zero => intro p hp; simp [collectCandidates] at hp
  | succ k ih =>
    intro p hp
    cases hc : collectCandidates gens k with
    | mk cs n =>
      have ih' : ∀ q, q ∈ cs → ∃ i, i < k ∧ gens i = some q := by
        intro q hq
        exact ih q (by rw [hc]; exact hq)
      cases hg : gens k with
      | none =>
        simp only [collectCandidates, hc, hg] at hp
        obtain ⟨i, hi, hgi⟩ := ih' p hp
        exact ⟨i, by omega, hgi⟩
      | some q =>
        simp only [collectCandidates, hc, hg] at hp
        rcases List.mem_append.mp hp with h | h
        · obtain ⟨i, hi, hgi⟩ := ih' p h
          exact ⟨i, by omega, hgi⟩
        · have : p = q := by simpa using h
          exact ⟨k, by omega, by rw [hg, this]⟩

theorem collectCandidates_all_none (gens : Nat → Option Plan) :
    ∀ k, (∀ i, i < k → gens i = none) → (collectCandidates gens k).1 = [] := by
  intro k
  induction k with
  | zero => intro _; rfl
  | succ k ih =>
    intro h
    have hk : gens k = none := h k (by omega)
    cases hc : collectCandidates gens k with
    | mk cs n =>
      have : cs = [] := by
        have := ih (fun i hi => h i (by omega))
        rw [hc] at this; exact this
      simp [collectCandidates, hc, hk, this]

theorem collectCandidates_ne_nil (gens : Nat → Option Plan) :
    ∀ k i, i < k → gens i ≠ none → (collectCandidates gens k).1 ≠ [] := by
  intro k
  induction k with
  | zero => intro i hi _; omega
  | succ k ih =>
    intro i hi hg
    cases hc : collectCandidates gens k with
    | mk cs n =>
      by_cases hik : i < k
      · have hne : cs ≠ [] := by
          have := ih i hik hg
          rw [hc] at this; exact this
        cases hgk : gens k <;> simp [collectCandidates, hc, hgk, hne]
      · have hik' : i = k := by omega
        subst hik'
        cases hgk : gens i with
        | none => exact absurd hgk hg
        | some p => simp [collectCandidates, hc, hgk]

theorem run_critic_selection_mem (critic : List Plan → String)
    (cs : List Plan) (c : Plan) (h : run_critic_selection critic cs = some c) :
    c ∈ cs := by
  unfold run_critic_selection at h
  cases hp : parseFirstNat (critic cs) with
  | none =>
    simp only [hp] at h
    exact List.getElem?_mem h
  | some idx =>
    simp only [hp] at h
    by_cases hi : idx < cs.length
    · rw [if_pos hi] at h
      exact List.getElem?_mem h
    · rw [if_neg hi] at h
      exact List.getElem?_mem h

theorem run_critic_selection_isSome (critic : List Plan → String)
    (cs : List Plan) (h : cs ≠ []) :
    ∃ c, run_critic_selection critic cs = some c := by
  have h0 : 0 < cs.length := List.length_pos.mpr h
  unfold run_critic_selection
  cases hp : parseFirstNat (critic cs) with
  | none => exact ⟨cs[0], List.getElem?_eq_getElem h0⟩
  | some idx =>
    by_cases hi : idx < cs.length
    · exact ⟨cs[idx], by simp only [if_pos hi]; exact List.getElem?_eq_getElem hi⟩
    · exact ⟨cs[0], by simp only [if_neg hi]; exact List.getElem?_eq_getElem h0⟩

theorem stageKey_injective : ∀ a b : StageName, stageKey a = stageKey b → a = b := by
  intro a b h
  cases a <;> cases b <;> first
    | rfl
    | exact absurd h (by decide)

/-! ## Claim theorems -/

/-- C1: `assemble_script` presents its sections in the fixed order
imports, init, structure, materials, physics, setup, analyze, results:
its output is unchanged by any reordering of the plan's keys, it is the
concatenation of the eight blocks in that fixed order, and for a plan
populated in every stage the first emitted line of each stage block (its
item comment) appears in the output in exactly that order. -/
theorem assemble_script_section_order (lib : Library) (e : String) (p q : Plan)
    (hn : (p.map Prod.fst).Nodup) (hpq : p.Perm q)
    (l1 l2 t3 t4 t5 t6 t7 t8 : List String) (c3 c4 c5 c6 c7 c8 : String)
    (h1 : importsSection lib (planFind p) = .ok l1)
    (h2 : initSection lib (planFind p) = .ok l2)
    (h3 : stageSection lib e .struct (planFind p) = .ok (c3 :: t3))
    (h4 : stageSection lib e .materials (planFind p) = .ok (c4 :: t4))
    (h5 : stageSection lib e .physics (planFind p) = .ok (c5 :: t5))
    (h6 : stageSection lib e .setup (planFind p) = .ok (c6 :: t6))
    (h7 : analyzeSection lib e (planFind p) = .ok (c7 :: t7))
    (h8 : stageSection lib e .results (planFind p) = .ok (c8 :: t8)) :
    assemble_script lib e p = assemble_script lib e q ∧
    assembleLines lib e (planFind p) =
      .ok (l1 ++ (l2 ++ ((c3 :: t3) ++ ((c4 :: t4) ++ ((c5 :: t5) ++
        ((c6 :: t6) ++ ((c7 :: t7) ++ (c8 :: t8)))))))) ∧
    [c3, c4, c5, c6, c7, c8].Sublist
      (l1 ++ (l2 ++ ((c3 :: t3) ++ ((c4 :: t4) ++ ((c5 :: t5) ++
        ((c6 :: t6) ++ ((c7 :: t7) ++ (c8 :: t8)))))))) := by
  refine ⟨?_, ?_, ?_⟩
  · unfold assemble_script
    rw [planFind_ext_of_perm hn hpq]
  · simp only [assembleLines, h1, h2, h3, h4, h5, h6, h7, h8]
  · have s3 : [c3].Sublist (c3 :: t3) := (List.nil_sublist t3).cons₂ c3
    have s4 : [c4].Sublist (c4 :: t4) := (List.nil_sublist t4).cons₂ c4
    have s5 : [c5].Sublist (c5 :: t5) := (List.nil_sublist t5).cons₂ c5
    have s6 : [c6].Sublist (c6 :: t6) := (List.nil_sublist t6).cons₂ c6
    have s7 : [c7].Sublist (c7 :: t7) := (List.nil_sublist t7).cons₂ c7
    have s8 : [c8].Sublist (c8 :: t8) := (List.nil_sublist t8).cons₂ c8
    have sAll := s3.append (s4.append (s5.append (s6.append (s7.append s8))))
    exact (sAll.trans (List.sublist_append_right l2 _)).trans
      (List.sublist_append_right l1 _)

/-- Witness for C1: a plan listing its stages in scrambled key order
compiles byte-identically to its canonically ordered permutation, and the
six stage comments come out in the fixed section order. -/
theorem assemble_script_section_order_witness :
    assemble_script
      [("imports", .lines ["import mph"]),
       ("init_project", .lines ["model = client.create(\x27{model_name}\x27)"]),
       ("geometry_shapes", .cat [("cylinder",
          ["cyl = create_shape()", "cyl.set_radius(\x7bradius\x7d)"])]),
       ("mats", .cat [("copper", ["mat()"])]),
       ("phys", .cat [("mf", ["p()"])]),
       ("studies", .cat [("freq", ["s()"])]),
       ("analyze", .cat [("run", ["run()"])]),
       ("res", .cat [("plot", ["plot()"])])] "comsol"
      [("results", .stage (.items [⟨some "plot", []⟩])),
       ("setup", .stage (.items [⟨some "freq", []⟩])),
       ("model_name", .str "M"),
       ("structure", .stage (.items
          [⟨some "cylinder", [("radius", "10[mm]"), ("id", "1")]⟩])),
       ("analyze", .stage (.items [⟨some "run", []⟩])),
       ("physics", .stage (.items [⟨some "mf", []⟩])),
       ("materials", .stage (.items [⟨some "copper", []⟩]))] =
    assemble_script
      [("imports", .lines ["import mph"]),
       ("init_project", .lines ["model = client.create(\x27{model_name}\x27)"]),
       ("geometry_shapes", .cat [("cylinder",
          ["cyl = create_shape()", "cyl.set_radius(\x7bradius\x7d)"])]),
       ("mats", .cat [("copper", ["mat()"])]),
       ("phys", .cat [("mf", ["p()"])]),
       ("studies", .cat [("freq", ["s()"])]),
       ("analyze", .cat [("run", ["run()"])]),
       ("res", .cat [("plot", ["plot()"])])] "comsol"
      [("model_name", .str "M"),
       ("structure", .stage (.items
          [⟨some "cylinder", [("radius", "10[mm]"), ("id", "1")]⟩])),
       ("materials", .stage (.items [⟨some "copper", []⟩])),
       ("physics", .stage (.items [⟨some "mf", []⟩])),
       ("setup", .stage (.items [⟨some "freq", []⟩])),
       ("analyze", .stage (.items [⟨some "run", []⟩])),
       ("results", .stage (.items [⟨some "plot", []⟩]))] ∧
    ["# geometry_shapes: cylinder (ID: 1)", "# mats: copper", "# phys: mf",
     "# studies: freq", "# analyze: run", "# res: plot"].Sublist
      (["import mph", ""] ++ (["model = client.create(\x27M\x27)", ""] ++
        ((["# geometry_shapes: cylinder (ID: 1)", "cyl = create_shape()",
           "cyl.set_radius(10[mm])", ""]) ++
         ((["# mats: copper", "mat()", ""]) ++
          ((["# phys: mf", "p()", ""]) ++
           ((["# studies: freq", "s()", ""]) ++
            ((["# analyze: run", "run()", ""]) ++
             (["# res: plot", "plot()", ""])))))))) := by
  refine ⟨?_, ?_⟩
  · exact (assemble_script_section_order
      [("imports", .lines ["import mph"]),
       ("init_project", .lines ["model = client.create(\x27{model_name}\x27)"]),
       ("geometry_shapes", .cat [("cylinder",
          ["cyl = create_shape()", "cyl.set_radius(\x7bradius\x7d)"])]),
       ("mats", .cat [("copper", ["mat()"])]),
       ("phys", .cat [("mf", ["p()"])]),
       ("studies", .cat [("freq", ["s()"])]),
       ("analyze", .cat [("run", ["run()"])]),
       ("res", .cat [("plot", ["plot()"])])] "comsol"
      [("results", .stage (.items [⟨some "plot", []⟩])),
       ("setup", .stage (.items [⟨some "freq", []⟩])),
       ("model_name", .str "M"),
       ("structure", .stage (.items
          [⟨some "cylinder", [("radius", "10[mm]"), ("id", "1")]⟩])),
       ("analyze", .stage (.items [⟨some "run", []⟩])),
       ("physics", .stage (.items [⟨some "mf", []⟩])),
       ("materials", .stage (.items [⟨some "copper", []⟩]))]
      [("model_name", .str "M"),
       ("structure", .stage (.items
          [⟨some "cylinder", [("radius", "10[mm]"), ("id", "1")]⟩])),
       ("materials", .stage (.items [⟨some "copper", []⟩])),
       ("physics", .stage (.items [⟨some "mf", []⟩])),
       ("setup", .stage (.items [⟨some "freq", []⟩])),
       ("analyze", .stage (.items [⟨some "run", []⟩])),
       ("results", .stage (.items [⟨some "plot", []⟩]))]
      (by decide) (by decide)
      _ _ _ _ _ _ _ _ _ _ _ _ _ _
      rfl rfl rfl rfl rfl rfl rfl rfl).1
  · exact (assemble_script_section_order
      [("imports", .lines ["import mph"]),
       ("init_project", .lines ["model = client.create(\x27{model_name}\x27)"]),
       ("geometry_shapes", .cat [("cylinder",
          ["cyl = create_shape()", "cyl.set_radius(\x7bradius\x7d)"])]),
       ("mats", .cat [("copper", ["mat()"])]),
       ("phys", .cat [("mf", ["p()"])]),
       ("studies", .cat [("freq", ["s()"])]),
       ("analyze", .cat [("run", ["run()"])]),
       ("res", .cat [("plot", ["plot()"])])] "comsol"
      [("model_name", .str "M"),
       ("structure", .stage (.items
          [⟨some "cylinder", [("radius", "10[mm]"), ("id", "1")]⟩])),
       ("materials", .stage (.items [⟨some "copper", []⟩])),
       ("physics", .stage (.items [⟨some "mf", []⟩])),
       ("setup", .stage (.items [⟨some "freq", []⟩])),
       ("analyze", .stage (.items [⟨some "run", []⟩])),
       ("results", .stage (.items [⟨some "plot", []⟩]))]
      [("model_name", .str "M"),
       ("structure", .stage (.items
          [⟨some "cylinder", [("radius", "10[mm]"), ("id", "1")]⟩])),
       ("materials", .stage (.items [⟨some "copper", []⟩])),
       ("physics", .stage (.items [⟨some "mf", []⟩])),
       ("setup", .stage (.items [⟨some "freq", []⟩])),
       ("analyze", .stage (.items [⟨some "run", []⟩])),
       ("results", .stage (.items [⟨some "plot", []⟩]))]
      (by decide) (by decide)
      _ _ _ _ _ _ _ _ _ _ _ _ _ _
      rfl rfl rfl rfl rfl rfl rfl rfl).2.2

/-- C6: `assemble_script` is deterministic and side-effect free — calling
the method twice on the same assembler yields byte-identical output and
leaves the assembler (hence its library) unchanged, and the output is a
function of nothing but the library, the engine string, and the plan's
key→value mapping. -/
theorem assemble_script_deterministic (a : CodeAssembler) (p q : Plan)
    (hpq : ∀ k, planFind p k = planFind q k) :
    (assemble_script_method a p).1 =
      (assemble_script_method (assemble_script_method a p).2 p).1 ∧
    (assemble_script_method a p).2 = a ∧
    assemble_script a.library a.engine p = assemble_script a.library a.engine q := by
  refine ⟨rfl, rfl, ?_⟩
  unfold assemble_script
  rw [funext hpq]

/-- Witness for C6: two textually different plan documents with the same
key→value mapping (a duplicated key is shadowed by first match, as in a
parsed JSON object) compile identically, and the method leaves the
assembler untouched. -/
theorem assemble_script_deterministic_witness :
    (assemble_script_method
      ⟨"comsol", [("imports", .lines ["import mph"])]⟩
      [("model_name", .str "M")]).1 =
    (assemble_script_method
      (assemble_script_method
        ⟨"comsol", [("imports", .lines ["import mph"])]⟩
        [("model_name", .str "M")]).2
      [("model_name", .str "M")]).1 ∧
    (assemble_script_method
      ⟨"comsol", [("imports", .lines ["import mph"])]⟩
      [("model_name", .str "M")]).2 =
      ⟨"comsol", [("imports", .lines ["import mph"])]⟩ ∧
    assemble_script [("imports", .lines ["import mph"])] "comsol"
      [("model_name", .str "M")] =
    assemble_script [("imports", .lines ["import mph"])] "comsol"
      [("model_name", .str "M"), ("model_name", .str "shadowed")] :=
  assemble_script_deterministic
    ⟨"comsol", [("imports", .lines ["import mph"])]⟩
    [("model_name", .str "M")]
    [("model_name", .str "M"), ("model_name", .str "shadowed")]
    (fun k => by
      by_cases h : "model_name" = k <;>
        simp [planFind, lookupKey, h])

/-- C3 counterexample: `assemble_script` takes no mode argument — its
signature is `(plan)` on an assembler fixed at construction — and on a
plan whose item type is absent from the library the one and only compile
path fails; no call can succeed with a warning comment, so the claimed
tolerant mode does not exist in the code. -/
theorem assemble_script_no_tolerant_mode_cex :
    assemble_script [("geometry_shapes", .cat [("cylinder", ["c()"])])]
      "comsol" [("structure", .stage (.items [⟨some "boxx", []⟩]))] =
    .error "Component type \x27boxx\x27 not found in library for engine \x27comsol\x27" := by
  rfl

/-- C3 (amended): compilation is unconditionally strict — whenever the
structure stage reaches an item whose nonempty type is absent from the
library (imports, init and the earlier items having succeeded),
`assemble_script` fails with the `ValueError` naming that type; there is
no tolerant mode and no mode argument. -/
theorem assemble_script_always_strict (lib : Library) (e : String)
    (get : String → Option PlanVal) (l1 l2 a : List String)
    (pre post : List Item) (it : Item) (t : String)
    (h1 : importsSection lib get = .ok l1)
    (h2 : initSection lib get = .ok l2)
    (hget : get "structure" = some (.stage (.items (pre ++ it :: post))))
    (hpre : processItems lib e .struct pre = .ok a)
    (ht : it.type? = some t) (hne : t ≠ "")
    (hfind : find_pattern lib t = none) :
    assembleLines lib e get = .error (missingTypeMsg .struct e t) ∧
    missingTypeMsg .struct e t =
      "Component type \x27" ++ t ++ "\x27 not found in library for engine \x27" ++
        e ++ "\x27" := by
  have hitem : processItem lib e .struct it = .error (missingTypeMsg .struct e t) := by
    simp [processItem, ht, hne, hfind]
  have hsec : stageSection lib e .struct get = .error (missingTypeMsg .struct e t) := by
    simp only [stageSection, stageKey, hget]
    rw [processItems_append]
    simp only [hpre, processItems, hitem]
  refine ⟨?_, rfl⟩
  simp only [assembleLines, h1, h2, hsec]

/-- Witness for C3's amended theorem: a concrete strict failure naming the
unresolvable type. -/
theorem assemble_script_always_strict_witness :
    assembleLines [("geometry_shapes", .cat [("cylinder", ["c()"])])] "comsol"
      (planFind [("structure", .stage (.items [⟨some "boxx", []⟩]))]) =
      .error (missingTypeMsg .struct "comsol" "boxx") ∧
    missingTypeMsg .struct "comsol" "boxx" =
      "Component type \x27boxx\x27 not found in library for engine \x27comsol\x27" :=
  assemble_script_always_strict
    [("geometry_shapes", .cat [("cylinder", ["c()"])])] "comsol"
    (planFind [("structure", .stage (.items [⟨some "boxx", []⟩]))])
    [""] [] [] [] [] ⟨some "boxx", []⟩ "boxx"
    rfl rfl rfl rfl rfl (by decide) rfl

/-- C8 counterexample: outside the structure section the item comment
never records the id — a materials item carrying `id = 7` compiles to a
script that does not mention `7` anywhere, refuting "the comment records
the item id if present" for every section. -/
theorem materials_comment_omits_id_cex :
    assemble_script [("mats", .cat [("copper", ["mat()"])])] "comsol"
      [("materials", .stage (.items [⟨some "copper", [("id", "7")]⟩]))] =
      .ok "\n# mats: copper\nmat()\n" ∧
    containsStr "7" "\n# mats: copper\nmat()\n" = false := by
  exact ⟨rfl, rfl⟩

/-- C8 (amended): every successfully compiled item contributes the block
"comment line, then its substituted template lines, then one blank line",
spliced between the blocks of the surrounding items; the comment records
the resolved category and the item's type, and carries an
`(ID: params' id, or N/A)` field exactly when the item is in the structure
section — items of other sections omit the id even when present. -/
theorem processItems_item_block (lib : Library) (e : String) (st : StageName)
    (pre post : List Item) (it : Item) (t cat : String)
    (pl body a b : List String)
    (ht : it.type? = some t) (hne : t ≠ "")
    (hfind : find_pattern lib t = some (pl, cat)) (hpl : pl ≠ [])
    (hfmt : formatLines (paramGet it.params) pl = .ok body)
    (hpre : processItems lib e st pre = .ok a)
    (hpost : processItems lib e st post = .ok b) :
    processItems lib e st (pre ++ it :: post) =
      .ok (a ++ ((mkComment st cat t it.params :: (body ++ [""])) ++ b)) ∧
    mkComment .struct cat t it.params =
      "# " ++ cat ++ ": " ++ t ++ " (ID: " ++
        (lookupKey "id" it.params).getD "N/A" ++ ")" ∧
    (st ≠ .struct → mkComment st cat t it.params = "# " ++ cat ++ ": " ++ t) := by
  have hitem : processItem lib e st it =
      .ok (mkComment st cat t it.params :: (body ++ [""])) := by
    simp [processItem, ht, hne, hfind, hpl, hfmt]
  refine ⟨?_, by simp [mkComment, String.append_assoc], ?_⟩
  · rw [processItems_append]
    simp only [hpre, processItems, hitem, hpost]
  · intro hst
    simp [mkComment, hst, String.append_assoc]

/-- Witness for C8's amended theorem: the spec's cylinder example — the
block is the `(ID: 1)` comment, the two substituted lines, and a blank —
and a materials comment stays id-free. -/
theorem processItems_item_block_witness :
    processItems [("geometry_shapes", .cat [("cylinder",
        ["cyl = create_shape()", "cyl.set_radius(\x7bradius\x7d)"])])]
      "comsol" .struct
      ([] ++ ((⟨some "cylinder",
        [("radius", "10mm"), ("height", "20mm"), ("id", "1")]⟩ : Item) :: [])) =
      .ok ([] ++ (("# geometry_shapes: cylinder (ID: 1)" ::
        (["cyl = create_shape()", "cyl.set_radius(10mm)"] ++ [""])) ++ [])) ∧
    mkComment .struct "geometry_shapes" "cylinder"
        [("radius", "10mm"), ("height", "20mm"), ("id", "1")] =
      "# " ++ "geometry_shapes" ++ ": " ++ "cylinder" ++ " (ID: " ++
        (lookupKey "id" [("radius", "10mm"), ("height", "20mm"), ("id", "1")]).getD
          "N/A" ++ ")" ∧
    (StageName.materials ≠ StageName.struct →
      mkComment .materials "geometry_shapes" "cylinder"
          [("radius", "10mm"), ("height", "20mm"), ("id", "1")] =
        "# " ++ "geometry_shapes" ++ ": " ++ "cylinder") := by
  refine ⟨?_, ?_, ?_⟩
  · exact (processItems_item_block
      [("geometry_shapes", .cat [("cylinder",
        ["cyl = create_shape()", "cyl.set_radius(\x7bradius\x7d)"])])]
      "comsol" .struct [] []
      ⟨some "cylinder", [("radius", "10mm"), ("height", "20mm"), ("id", "1")]⟩
      "cylinder" "geometry_shapes"
      ["cyl = create_shape()", "cyl.set_radius(\x7bradius\x7d)"]
      ["cyl = create_shape()", "cyl.set_radius(10mm)"] [] []
      rfl (by decide) rfl (by decide) rfl rfl rfl).1
  · exact (processItems_item_block
      [("geometry_shapes", .cat [("cylinder",
        ["cyl = create_shape()", "cyl.set_radius(\x7bradius\x7d)"])])]
      "comsol" .struct [] []
      ⟨some "cylinder", [("radius", "10mm"), ("height", "20mm"), ("id", "1")]⟩
      "cylinder" "geometry_shapes"
      ["cyl = create_shape()", "cyl.set_radius(\x7bradius\x7d)"]
      ["cyl = create_shape()", "cyl.set_radius(10mm)"] [] []
      rfl (by decide) rfl (by decide) rfl rfl rfl).2.1
  · exact (processItems_item_block
      [("geometry_shapes", .cat [("cylinder",
        ["cyl = create_shape()", "cyl.set_radius(\x7bradius\x7d)"])])]
      "comsol" .materials [] []
      ⟨some "cylinder", [("radius", "10mm"), ("height", "20mm"), ("id", "1")]⟩
      "cylinder" "geometry_shapes"
      ["cyl = create_shape()", "cyl.set_radius(\x7bradius\x7d)"]
      ["cyl = create_shape()", "cyl.set_radius(10mm)"] [] []
      rfl (by decide) rfl (by decide) rfl rfl rfl).2.2

/-- C9 counterexample: a single item object is accepted only by the setup
stage — the same item written as a one-element sequence compiles, while
the single-object form under `structure` raises (Python iterates the dict
and `AttributeError`s on its first key), so the two forms do not produce
the same output. -/
theorem structure_single_item_cex :
    assemble_script [("mats", .cat [("copper", ["mat()"])])] "comsol"
      [("structure", .stage (.single ⟨some "copper", [("id", "1")]⟩))] =
      .error strGetAttrErr ∧
    assemble_script [("mats", .cat [("copper", ["mat()"])])] "comsol"
      [("structure", .stage (.items [⟨some "copper", [("id", "1")]⟩]))] =
      .ok "\n# mats: copper (ID: 1)\nmat()\n" ∧
    assemble_script [("mats", .cat [("copper", ["mat()"])])] "comsol"
      [("structure", .stage (.single ⟨some "copper", [("id", "1")]⟩))] ≠
    assemble_script [("mats", .cat [("copper", ["mat()"])])] "comsol"
      [("structure", .stage (.items [⟨some "copper", [("id", "1")]⟩]))] := by
  refine ⟨rfl, rfl, by decide⟩

/-- C9 (amended): only the setup stage treats a single item object as the
one-element sequence — its section output is identical for the two forms —
while every other stage, given a (nonempty) single item object, fails with
the `AttributeError` raised by iterating the dict's keys. -/
theorem setup_single_item_wrap (lib : Library) (e : String)
    (get get' : String → Option PlanVal) (it : Item)
    (hg : get "setup" = some (.stage (.single it)))
    (hg' : get' "setup" = some (.stage (.items [it]))) :
    stageSection lib e .setup get = stageSection lib e .setup get' ∧
    ∀ st, st ≠ StageName.setup → itemDictEmpty it = false →
      ∀ g : String → Option PlanVal,
        g (stageKey st) = some (.stage (.single it)) →
        stageSection lib e st g = .error strGetAttrErr := by
  constructor
  · simp [stageSection, stageKey, hg, hg']
  · intro st hst hempty g hgst
    simp [stageSection, hgst, hst, hempty]

/-- Witness for C9's amended theorem: setup compiles the wrapped and
unwrapped forms identically; structure rejects the single form. -/
theorem setup_single_item_wrap_witness :
    stageSection [("mats", .cat [("copper", ["mat()"])])] "comsol" .setup
      (planFind [("setup", .stage (.single ⟨some "copper", []⟩))]) =
    stageSection [("mats", .cat [("copper", ["mat()"])])] "comsol" .setup
      (planFind [("setup", .stage (.items [⟨some "copper", []⟩]))]) ∧
    stageSection [("mats", .cat [("copper", ["mat()"])])] "comsol" .struct
      (planFind [("structure", .stage (.single ⟨some "copper", []⟩))]) =
      .error strGetAttrErr :=
  ⟨(setup_single_item_wrap [("mats", .cat [("copper", ["mat()"])])] "comsol"
      (planFind [("setup", .stage (.single ⟨some "copper", []⟩))])
      (planFind [("setup", .stage (.items [⟨some "copper", []⟩]))])
      ⟨some "copper", []⟩ rfl rfl).1,
   (setup_single_item_wrap [("mats", .cat [("copper", ["mat()"])])] "comsol"
      (planFind [("setup", .stage (.single ⟨some "copper", []⟩))])
      (planFind [("setup", .stage (.items [⟨some "copper", []⟩]))])
      ⟨some "copper", []⟩ rfl rfl).2
     .struct (by decide) rfl
     (planFind [("structure", .stage (.single ⟨some "copper", []⟩))]) rfl⟩

/-- C10: an item whose `type` is missing or empty is silently skipped —
it contributes no lines and no error, every stage loop treats the item
list with it exactly like the list without it, and (when the templated
imports/init/analyze blocks do not interpolate the stage value itself)
the whole compiled script equals that of the plan with the item removed. -/
theorem typeless_item_skipped (lib : Library) (e : String) (it : Item)
    (ht : it.type? = none ∨ it.type? = some "") :
    (∀ st, processItem lib e st it = .ok []) ∧
    (∀ st pre post, processItems lib e st (pre ++ it :: post) =
      processItems lib e st (pre ++ post)) ∧
    (∀ st (get : String → Option PlanVal) (pre post : List Item),
      st ≠ StageName.analyze →
      get (stageKey st) = some (.stage (.items (pre ++ it :: post))) →
      importsSection lib
          (overrideGet get (stageKey st) (.stage (.items (pre ++ post)))) =
        importsSection lib get →
      initSection lib
          (overrideGet get (stageKey st) (.stage (.items (pre ++ post)))) =
        initSection lib get →
      analyzeSection lib e
          (overrideGet get (stageKey st) (.stage (.items (pre ++ post)))) =
        analyzeSection lib e get →
      assembleLines lib e get =
        assembleLines lib e
          (overrideGet get (stageKey st) (.stage (.items (pre ++ post))))) := by
  have hone : ∀ st, processItem lib e st it = .ok [] := by
    intro st
    rcases ht with h | h <;> simp [processItem, h]
  have hskip : ∀ st pre post, processItems lib e st (pre ++ it :: post) =
      processItems lib e st (pre ++ post) := by
    intro st pre post
    rw [processItems_append, processItems_append]
    cases processItems lib e st pre with
    | error m => rfl
    | ok a =>
      have hstep : processItems lib e st (it :: post) = processItems lib e st post := by
        simp only [processItems, hone st]
        cases processItems lib e st post with
        | error m => rfl
        | ok b => simp
      rw [hstep]
  refine ⟨hone, hskip, ?_⟩
  intro st get pre post hst hget himp hinit han
  have hover : overrideGet get (stageKey st) (.stage (.items (pre ++ post)))
      (stageKey st) = some (.stage (.items (pre ++ post))) := by
    simp [overrideGet]
  have hsec : ∀ st₂, stageSection lib e st₂ get =
      stageSection lib e st₂
        (overrideGet get (stageKey st) (.stage (.items (pre ++ post)))) := by
    intro st₂
    by_cases h2 : st₂ = st
    · subst h2
      rw [stageSection, stageSection, hget, hover]
      cases hd : decide (st₂ = StageName.setup) <;>
        simp only [stageSection, hskip]
    · have hk : stageKey st₂ ≠ stageKey st := fun hc =>
        h2 (stageKey_injective _ _ hc)
      have : overrideGet get (stageKey st) (.stage (.items (pre ++ post)))
          (stageKey st₂) = get (stageKey st₂) := by
        simp [overrideGet, hk]
      rw [stageSection, stageSection, this]
  unfold assembleLines
  rw [← himp, ← hinit, ← han, hsec .struct, hsec .materials, hsec .physics,
    hsec .setup, hsec .results]

/-- Witness for C10: dropping a typeless structure item changes nothing in
the compiled script. -/
theorem typeless_item_skipped_witness :
    processItem [("mats", .cat [("copper", ["mat()"])])] "comsol" .struct
      ⟨some "", [("id", "9")]⟩ = .ok [] ∧
    processItems [("mats", .cat [("copper", ["mat()"])])] "comsol" .struct
      ([⟨some "copper", []⟩] ++ ((⟨some "", [("id", "9")]⟩ : Item) :: [])) =
    processItems [("mats", .cat [("copper", ["mat()"])])] "comsol" .struct
      ([⟨some "copper", []⟩] ++ []) ∧
    assembleLines [("mats", .cat [("copper", ["mat()"])])] "comsol"
      (planFind [("structure", .stage (.items
        [⟨some "copper", []⟩, ⟨some "", [("id", "9")]⟩]))]) =
    assembleLines [("mats", .cat [("copper", ["mat()"])])] "comsol"
      (overrideGet
        (planFind [("structure", .stage (.items
          [⟨some "copper", []⟩, ⟨some "", [("id", "9")]⟩]))])
        (stageKey .struct) (.stage (.items ([⟨some "copper", []⟩] ++ [])))) := by
  refine ⟨?_, ?_, ?_⟩
  · exact (typeless_item_skipped [("mats", .cat [("copper", ["mat()"])])]
      "comsol" ⟨some "", [("id", "9")]⟩ (Or.inr rfl)).1 .struct
  · exact (typeless_item_skipped [("mats", .cat [("copper", ["mat()"])])]
      "comsol" ⟨some "", [("id", "9")]⟩ (Or.inr rfl)).2.1 .struct
      [⟨some "copper", []⟩] []
  · exact (typeless_item_skipped [("mats", .cat [("copper", ["mat()"])])]
      "comsol" ⟨some "", [("id", "9")]⟩ (Or.inr rfl)).2.2 .struct
      (planFind [("structure", .stage (.items
        [⟨some "copper", []⟩, ⟨some "", [("id", "9")]⟩]))])
      [⟨some "copper", []⟩] [] (by decide) rfl rfl rfl rfl

/-- C2: in the repair loop of `research_cycle`, whenever an execution
attempt exits with code zero, the loop stops successfully on that attempt
whatever reward `get_reward_from_file` computes — including the crash
penalty `-1.0` assigned when the result artifact or its metric is missing
(`artifact = none`); no further retry is performed. -/
theorem research_loop_zero_exit_stops (env : Nat → StepOutcome) (maxR k : Nat)
    (out err : String) (art : Option ℚ)
    (hk : k < maxR)
    (hpre : ∀ i, i < k → retryable (env i))
    (hexec : env k = .executed 0 out err art) :
    (research_loop env maxR).success = true ∧
    (research_loop env maxR).iterations = k + 1 ∧
    (research_loop env maxR).reward = get_reward_from_file art ∧
    (art = none → (research_loop env maxR).reward = -1) := by
  obtain ⟨fb', hres⟩ := research_loop_go_success env out err art k maxR 0 0 []
    hk (by simpa using hpre) (by simpa using hexec)
  rw [research_loop, hres]
  refine ⟨rfl, by simp, rfl, ?_⟩
  intro ha
  subst ha
  rfl

/-- Witness for C2: a first attempt that exits zero with no readable
artifact stops the loop at once, successfully, with the crash-penalty
reward. -/
theorem research_loop_zero_exit_stops_witness :
    (research_loop (fun _ => .executed 0 "out" "err" none) 3).success = true ∧
    (research_loop (fun _ => .executed 0 "out" "err" none) 3).iterations = 1 ∧
    (research_loop (fun _ => .executed 0 "out" "err" none) 3).reward =
      get_reward_from_file none ∧
    (none = (none : Option ℚ) →
      (research_loop (fun _ => .executed 0 "out" "err" none) 3).reward = -1) :=
  research_loop_zero_exit_stops (fun _ => .executed 0 "out" "err" none) 3 0
    "out" "err" none (by decide) (fun i hi => absurd hi (by omega)) rfl

/-- C5: when every execution attempt exits nonzero (and every iteration
reaches execution), the loop of `research_cycle` runs exactly
`max_retries` generate→compile→execute bodies, feeds each captured stderr
back as a corrective message, and then stops unsuccessfully; and no run of
the loop ever performs more than `max_retries` iterations. -/
theorem research_loop_exhausts_max_attempts (env : Nat → StepOutcome)
    (maxR : Nat) (ec : Nat → Int) (out err : Nat → String)
    (art : Nat → Option ℚ)
    (h : ∀ i, i < maxR → env i = .executed (ec i) (out i) (err i) (art i))
    (hne : ∀ i, i < maxR → ec i ≠ 0) :
    research_loop env maxR =
      ⟨false, if maxR = 0 then 0 else -1, maxR,
        (List.range maxR).map (fun i => mkExecErrMsg (err i))⟩ ∧
    ∀ (env' : Nat → StepOutcome) (maxR' : Nat),
      (research_loop env' maxR').iterations ≤ maxR' := by
  constructor
  · rw [research_loop, research_loop_go_all_nonzero env ec out err art maxR 0 0 []
      (fun i h1 h2 => ⟨h i (by omega), hne i (by omega)⟩)]
    simp [List.range_eq_range']
  · intro env' maxR'
    simpa using research_loop_go_iterations_le env' maxR' 0 0 []

/-- Witness for C5: three attempts that all exit nonzero exhaust
`max_retries = 3`, each one's stderr echoed into the feedback trail. -/
theorem research_loop_exhausts_max_attempts_witness :
    research_loop (fun i => .executed 1 "out" ("boom " ++ toString i) none)
        max_retries =
      ⟨false, if max_retries = 0 then 0 else -1, max_retries,
        (List.range max_retries).map
          (fun i => mkExecErrMsg ("boom " ++ toString i))⟩ :=
  (research_loop_exhausts_max_attempts
    (fun i => .executed 1 "out" ("boom " ++ toString i) none) max_retries
    (fun _ => 1) (fun _ => "out") (fun i => "boom " ++ toString i)
    (fun _ => none) (fun _ _ => rfl) (fun _ _ => by simp)).1

/-- C4: `_generate_with_voting` invokes the generator exactly `k` times;
when every draft is invalid it fails with the `NoValidCandidate`
`ValueError` after those `k` invocations, and when at least one draft is
valid it returns one of the valid drafts. -/
theorem generate_with_voting_spec (gens : Nat → Option Plan)
    (critic : List Plan → String) (name : String) (k : Nat) :
    (generate_with_voting gens critic name k).2 = k ∧
    ((∀ i, i < k → gens i = none) →
      (generate_with_voting gens critic name k).1 =
        .error (name ++ " failed to produce valid output in " ++
          toString k ++ " attempts.")) ∧
    ((∃ i, i < k ∧ gens i ≠ none) →
      ∃ p, (generate_with_voting gens critic name k).1 = .ok p ∧
        ∃ i, i < k ∧ gens i = some p) := by
  cases hc : collectCandidates gens k with
  | mk cs n =>
    have hn : n = k := by
      have h := collectCandidates_calls gens k
      rw [hc] at h
      exact h
    have hmem : ∀ p, p ∈ cs → ∃ i, i < k ∧ gens i = some p := by
      intro p hp
      exact collectCandidates_mem gens k p (by rw [hc]; exact hp)
    refine ⟨?_, ?_, ?_⟩
    · subst hn
      simp only [generate_with_voting, hc]
      cases cs with
      | nil => rfl
      | cons c rest =>
        cases rest with
        | nil => rfl
        | cons c2 r2 =>
          cases run_critic_selection critic (c :: c2 :: r2) <;> rfl
    · intro hall
      have : cs = [] := by
        have h := collectCandidates_all_none gens k hall
        rw [hc] at h
        exact h
      subst this
      simp [generate_with_voting, hc]
    · intro hex
      obtain ⟨i, hi, hgi⟩ := hex
      have hnil : cs ≠ [] := by
        have h := collectCandidates_ne_nil gens k i hi hgi
        rw [hc] at h
        exact h
      cases cs with
      | nil => exact absurd rfl hnil
      | cons c rest =>
        cases rest with
        | nil =>
          refine ⟨c, ?_, hmem c (List.mem_cons_self _ _)⟩
          simp [generate_with_voting, hc]
        | cons c2 r2 =>
          obtain ⟨c', hc'⟩ := run_critic_selection_isSome critic (c :: c2 :: r2)
            (by simp)
          refine ⟨c', ?_, hmem c' (run_critic_selection_mem critic _ c' hc')⟩
          simp [generate_with_voting, hc, hc']

/-- Witness for C4: with drafts [invalid, valid, invalid] the selector
returns the one valid plan after exactly 3 generator calls, and with all
drafts invalid it fails with the `ValueError` after exactly 3 calls. -/
theorem generate_with_voting_spec_witness :
    (generate_with_voting
      (fun i => if i = 1 then some [("engine", PlanVal.str "comsol")] else none)
      (fun _ => "0") "Mathematician" 3).2 = 3 ∧
    (∃ p, (generate_with_voting
      (fun i => if i = 1 then some [("engine", PlanVal.str "comsol")] else none)
      (fun _ => "0") "Mathematician" 3).1 = .ok p ∧
      ∃ i, i < 3 ∧
        (fun i => if i = 1 then some [("engine", PlanVal.str "comsol")] else none) i
          = some p) ∧
    ((generate_with_voting (fun _ => none) (fun _ => "0") "Mathematician" 3).1 =
      .error "Mathematician failed to produce valid output in 3 attempts.") ∧
    (generate_with_voting (fun _ => none) (fun _ => "0") "Mathematician" 3).2 = 3 :=
  ⟨(generate_with_voting_spec
      (fun i => if i = 1 then some [("engine", PlanVal.str "comsol")] else none)
      (fun _ => "0") "Mathematician" 3).1,
   (generate_with_voting_spec
      (fun i => if i = 1 then some [("engine", PlanVal.str "comsol")] else none)
      (fun _ => "0") "Mathematician" 3).2.2 ⟨1, by decide, by decide⟩,
   (generate_with_voting_spec (fun _ => none)
      (fun _ => "0") "Mathematician" 3).2.1 (fun _ _ => rfl),
   (generate_with_voting_spec (fun _ => none)
      (fun _ => "0") "Mathematician" 3).1⟩

/-- C7: in `custom_speaker_selection`, when the Critic spoke last, a
response containing the approval marker hands control to the
Mathematician and any other response returns it to the Architect — unless
the last message carries a clarification/question marker, in which case
control goes to the unconstrained `"auto"` dispatch path instead of the
fixed edge. -/
theorem custom_speaker_selection_critic_edges (messages : List String)
    (m : String) (hlast : messages.getLast? = some m) :
    (hasQuestionMarker m = true →
      custom_speaker_selection .critic messages = some .auto) ∧
    (hasQuestionMarker m = false → containsStr "APPROVE" m = true →
      custom_speaker_selection .critic messages = some (.agent .mathematician)) ∧
    (hasQuestionMarker m = false → containsStr "APPROVE" m = false →
      custom_speaker_selection .critic messages = some (.agent .architect)) := by
  refine ⟨?_, ?_, ?_⟩
  · intro h1
    simp [custom_speaker_selection, hlast, h1]
  · intro h1 h2
    simp [custom_speaker_selection, hlast, h1, h2]
  · intro h1 h2
    simp [custom_speaker_selection, hlast, h1, h2]

/-- Witness for C7: the three routings on concrete Critic replies. -/
theorem custom_speaker_selection_critic_edges_witness :
    custom_speaker_selection .critic ["Looks solid. APPROVE."] =
      some (.agent .mathematician) ∧
    custom_speaker_selection .critic ["APPROVE, but one question: what core?"] =
      some .auto ∧
    custom_speaker_selection .critic ["Thermal runaway risk. Rejected."] =
      some (.agent .architect) :=
  ⟨(custom_speaker_selection_critic_edges ["Looks solid. APPROVE."] _ rfl).2.1
      (by rfl) (by rfl),
   (custom_speaker_selection_critic_edges
      ["APPROVE, but one question: what core?"] _ rfl).1 (by rfl),
   (custom_speaker_selection_critic_edges
      ["Thermal runaway risk. Rejected."] _ rfl).2.2 (by rfl) (by rfl)⟩

end ScalarLab
